import Mathlib

/-!
Shallow embedding of the NeoroSensee back-end server (the Express
application in the single server file of the repository): the Mongoose user
model, the bcrypt password hashing, the JWT session codec, the auth
middleware and the five route handlers (register, login, me, update,
progress).

Modelling conventions:
* JSON response bodies are terms of an inductive `Json` type.
* MongoDB documents live in a `List UserRec`; `_id` is the primary key.
* `bcrypt.hash` is salted: the digest records the plaintext it was
  derived from together with a per-call salt, and `bcrypt.compare`
  succeeds exactly on that plaintext (the ideal-hash model).
* `jwt.sign` / `jwt.verify` are modelled by a `Token` structure carrying
  the claims, the absolute expiry (seconds) and the signing secret; the
  wire form is a dot-separated string (standing in for the base64 JWT).
* Time is a `Nat` of seconds since the epoch, passed explicitly where
  the source reads the clock.
-/

/-- A JSON value, as produced by `res.json(...)` in the server. -/
inductive Json where
  | str : String → Json
  | num : Int → Json
  | obj : List (String × Json) → Json
  | arr : List Json → Json
deriving Repr

/-- An HTTP response: a status code and a JSON body. -/
structure HttpResponse where
  status : Nat
  body : Json
deriving Repr

/-- The `{ message: m }` bodies used by every error path of the server. -/
def msgResponse (status : Nat) (m : String) : HttpResponse :=
  { status := status, body := .obj [("message", .str m)] }

mutual
/-- Whether a JSON value contains a field named `k` anywhere (at any
nesting depth). -/
def jsonHasKey (k : String) : Json → Bool
  | .str _ => false
  | .num _ => false
  | .obj fields => fieldsHaveKey k fields
  | .arr xs => arrHasKey k xs

/-- Whether an object field list contains the key `k` (recursing into
values). -/
def fieldsHaveKey (k : String) : List (String × Json) → Bool
  | [] => false
  | (k₁, v) :: rest => k₁ == k || jsonHasKey k v || fieldsHaveKey k rest

/-- Whether any element of a JSON array contains the key `k`. -/
def arrHasKey (k : String) : List Json → Bool
  | [] => false
  | v :: rest => jsonHasKey k v || arrHasKey k rest
end

/-! ## bcrypt model -/

/-- An ideal bcrypt digest: records the plaintext it was hashed from and
the per-call salt (so hashing the same plaintext twice with different
salts yields different digests, yet `bcryptCompare` still succeeds). -/
structure Digest where
  plain : String
  salt : Nat
deriving DecidableEq, Repr

/-- `bcrypt.hash(password, 10)` with an explicit per-call salt. -/
def bcryptHash (password : String) (salt : Nat) : Digest :=
  { plain := password, salt := salt }

/-- `bcrypt.compare(password, digest)`: true iff the digest was produced
by hashing this plaintext. -/
def bcryptCompare (password : String) (d : Digest) : Bool :=
  password == d.plain

/-! ## JWT model -/

/-- A decoded JWT as issued by the server: the `{userId, email}` claims,
the absolute expiry, and the secret it was signed with (standing in for
the signature). -/
structure Token where
  userId : Nat
  email : String
  exp : Nat
  sig : String
deriving DecidableEq, Repr

/-- Seven days in seconds: the `expiresIn: 7d` policy of the source. -/
def sevenDays : Nat := 7 * 24 * 60 * 60

/-- A model of `jwt.sign` with the claims, the secret and the 7d expiry, at time `now`. -/
def jwtSign (userId : Nat) (email : String) (secret : String) (now : Nat) : Token :=
  { userId := userId, email := email, exp := now + sevenDays, sig := secret }

/-- `jwt.verify(token, secret)` on a decoded token at time `now`:
succeeds with the claims iff the signature matches and the expiry has
not passed. -/
def jwtVerifyTok (t : Token) (secret : String) (now : Nat) : Option (Nat × String) :=
  if t.sig == secret && decide (now < t.exp) then some (t.userId, t.email) else none

/-- Split a character list on every occurrence of `c` (the semantics of
JavaScript `String.prototype.split` on a one-character separator),
written structurally so every call on a literal evaluates. -/
def splitOnCharAux (c : Char) : List Char → List Char → List String
  | [], acc => [String.mk acc.reverse]
  | x :: xs, acc =>
    if x == c then String.mk acc.reverse :: splitOnCharAux c xs []
    else splitOnCharAux c xs (x :: acc)

/-- `s.split(c)` for a one-character separator. -/
def splitOnChar (c : Char) (s : String) : List String :=
  splitOnCharAux c s.toList []

/-- Parse a nonempty all-digit character list as a decimal number. -/
def parseNatAux : List Char → Nat → Option Nat
  | [], acc => some acc
  | c :: cs, acc =>
    if 48 ≤ c.toNat ∧ c.toNat ≤ 57 then parseNatAux cs (acc * 10 + (c.toNat - 48))
    else none

/-- Parse a decimal numeral; `none` on the empty or a non-digit string. -/
def parseNat? (s : String) : Option Nat :=
  match s.toList with
  | [] => none
  | cs => parseNatAux cs 0

/-- The wire form of a token: a dot-separated rendering standing in for
the base64url JWT (userId.exp.signature.email; the email keeps any dots
since it is the final segment). -/
def tokenString (t : Token) : String :=
  toString t.userId ++ "." ++ toString t.exp ++ "." ++ t.sig ++ "." ++ t.email

/-- Decoding the wire form back into a token; `none` models a malformed
token (which `jwt.verify` rejects). -/
def parseToken (s : String) : Option Token :=
  match splitOnChar '.' s with
  | uidS :: expS :: sigS :: emailParts =>
    match parseNat? uidS, parseNat? expS with
    | some uid, some exp =>
      if emailParts.isEmpty then none
      else some { userId := uid, email := String.intercalate "." emailParts,
                  exp := exp, sig := sigS }
    | _, _ => none
  | _ => none

/-- `jwt.verify` on a wire-form token string: fails on malformed input,
bad signature or passed expiry. -/
def jwtVerifyStr (s : String) (secret : String) (now : Nat) : Option (Nat × String) :=
  (parseToken s).bind (fun t => jwtVerifyTok t secret now)

/-! ## User store model -/

/-- A persisted user document (the Mongoose `User` model). `password`
holds the bcrypt digest; `birthdate` is optional; `phone` defaults to
the empty string. -/
structure UserRec where
  id : Nat
  name : String
  email : String
  password : Digest
  phone : String
  birthdate : Option String
  createdAt : Nat
deriving DecidableEq, Repr

/-- The MongoDB collection of users. -/
abbrev Store := List UserRec

/-- `User.findOne({ email })`. -/
def findByEmail (store : Store) (email : String) : Option UserRec :=
  store.find? (fun u => u.email == email)

/-- `User.findById(id)`. -/
def findById (store : Store) (id : Nat) : Option UserRec :=
  store.find? (fun u => u.id == id)

/-- Inserting a new document; the `unique: true` index of the schema on
`email` makes the write fail (duplicate-key error) when another document
already has this email. -/
def insertUser (store : Store) (u : UserRec) : Option Store :=
  if store.any (fun v => v.email == u.email) then none
  else some (store ++ [u])

/-- `document.save()` after mutating a fetched document: writes the
document back under its `_id`; the `unique: true` index of the schema on
`email` makes the write fail (duplicate-key error) when a *different*
document already has this email. -/
def saveUser (store : Store) (u : UserRec) : Option Store :=
  if store.any (fun v => v.id != u.id && v.email == u.email) then none
  else some (store.map (fun v => if v.id == u.id then u else v))

/-! ## Auth middleware -/

/-- `req.headers.authorization?.split(' ')[1]`, followed by the
`if (!token)` falsiness check (which also rejects the empty string). -/
def extractToken (authorization : Option String) : Option String :=
  match authorization with
  | none => none
  | some h =>
    match (splitOnChar ' ' h).get? 1 with
    | none => none
    | some t => if t == "" then none else some t

/-- The auth middleware: 401 `No token provided` when no token is
extracted, 401 `Invalid token` when verification fails, otherwise the
verified `userId` is handed to the route handler. -/
def runAuth (secret : String) (now : Nat) (authorization : Option String) :
    Except HttpResponse Nat :=
  match extractToken authorization with
  | none => .error (msgResponse 401 "No token provided")
  | some tok =>
    match jwtVerifyStr tok secret now with
    | none => .error (msgResponse 401 "Invalid token")
    | some claims => .ok claims.1

/-- A protected route: the middleware either rejects the request (the
handler is never invoked and the store is untouched) or passes the
verified `userId` on to the handler. -/
def protectedRoute (secret : String) (now : Nat) (authorization : Option String)
    (store : Store) (handler : Nat → Store → HttpResponse × Store) :
    HttpResponse × Store :=
  match runAuth secret now authorization with
  | .error r => (r, store)
  | .ok uid => handler uid store

/-! ## Route handlers -/

/-- The derived avatar URL (`https://ui-avatars.com/api/?name=...`);
the URI-escaping of the name is abstracted as the identity since no
property depends on the escaping itself. -/
def avatarUrl (name : String) : String :=
  "https://ui-avatars.com/api/?name=" ++ name ++ "&background=random"

/-- The public profile object returned by login, me and update:
id, name, email, `phone || ''`, `birthdate || ''`, profileImage. -/
def publicProfile (u : UserRec) : Json :=
  .obj [("id", .num u.id), ("name", .str u.name), ("email", .str u.email),
        ("phone", .str u.phone), ("birthdate", .str (u.birthdate.getD "")),
        ("profileImage", .str (avatarUrl u.name))]

/-- `POST /api/auth/register`: reject a known email with 400, otherwise
hash the password, insert the document, sign a 7-day token and answer
201 with the token and the user without the digest. The unreachable
insert failure maps to the catch-all 500. -/
def registerHandler (store : Store) (nextId salt now : Nat) (secret : String)
    (name email password : String) : HttpResponse × Store :=
  match findByEmail store email with
  | some _ => (msgResponse 400 "User already exists", store)
  | none =>
    let user : UserRec :=
      { id := nextId, name := name, email := email,
        password := bcryptHash password salt, phone := "",
        birthdate := none, createdAt := now }
    match insertUser store user with
    | none => (msgResponse 500 "Server error", store)
    | some store₁ =>
      let token := jwtSign user.id user.email secret now
      ({ status := 201,
         body := .obj [("message", .str "User created successfully"),
                       ("token", .str (tokenString token)),
                       ("user", .obj [("id", .num user.id),
                                      ("name", .str user.name),
                                      ("email", .str user.email)])] },
       store₁)

/-- `POST /api/auth/login`: 400 `Invalid credentials` when the email
is unknown or the password fails the digest comparison, otherwise 200
with a fresh token and the public profile. -/
def loginHandler (store : Store) (now : Nat) (secret : String)
    (email password : String) : HttpResponse × Store :=
  match findByEmail store email with
  | none => (msgResponse 400 "Invalid credentials", store)
  | some user =>
    if bcryptCompare password user.password then
      let token := jwtSign user.id user.email secret now
      ({ status := 200,
         body := .obj [("message", .str "Login successful"),
                       ("token", .str (tokenString token)),
                       ("user", publicProfile user)] },
       store)
    else (msgResponse 400 "Invalid credentials", store)

/-- `GET /api/auth/me` (after the middleware): 404 when the userId of
the token no longer resolves, otherwise 200 with the public profile. -/
def meHandler (uid : Nat) (store : Store) : HttpResponse × Store :=
  match findById store uid with
  | none => (msgResponse 404 "User not found", store)
  | some user =>
    ({ status := 200, body := .obj [("user", publicProfile user)] }, store)

/-- The parsed body of `PUT /api/users/update`; absent fields are
`none`. -/
structure UpdateBody where
  name : Option String
  email : Option String
  phone : Option String
  birthdate : Option String
  currentPassword : Option String
  newPassword : Option String
deriving Repr

/-- JavaScript truthiness of an optional string field: present and
non-empty. -/
def truthy : Option String → Bool
  | none => false
  | some s => s != ""

/-- `if (name) user.name = name`. -/
def setName (u : UserRec) : Option String → UserRec
  | some n => if n == "" then u else { u with name := n }
  | none => u

/-- `if (email) user.email = email`. -/
def setEmail (u : UserRec) : Option String → UserRec
  | some e => if e == "" then u else { u with email := e }
  | none => u

/-- `if (phone !== undefined) user.phone = phone` (empty string counts). -/
def setPhone (u : UserRec) : Option String → UserRec
  | some p => { u with phone := p }
  | none => u

/-- `if (birthdate) user.birthdate = birthdate`. -/
def setBirthdate (u : UserRec) : Option String → UserRec
  | some b => if b == "" then u else { u with birthdate := some b }
  | none => u

/-- The in-memory mutation of the fetched document by the four basic
field updates, in source order. -/
def applyBasic (u : UserRec) (b : UpdateBody) : UserRec :=
  setBirthdate (setPhone (setEmail (setName u b.name) b.email) b.phone) b.birthdate

/-- `PUT /api/users/update` (after the middleware): 404 when the user is
gone; mutate the basic fields in memory; when both password fields are
truthy, verify the current password (400 before any save on mismatch)
and hash the new one; finally `save()` — a duplicate-email index
violation is caught as 500 and nothing is persisted. -/
def updateHandler (store : Store) (salt : Nat) (uid : Nat) (b : UpdateBody) :
    HttpResponse × Store :=
  match findById store uid with
  | none => (msgResponse 404 "User not found", store)
  | some user₀ =>
    let user₁ := applyBasic user₀ b
    if truthy b.currentPassword && truthy b.newPassword then
      if bcryptCompare (b.currentPassword.getD "") user₁.password then
        let user₂ := { user₁ with password := bcryptHash (b.newPassword.getD "") salt }
        match saveUser store user₂ with
        | none => (msgResponse 500 "Server error", store)
        | some store₁ =>
          ({ status := 200,
             body := .obj [("message", .str "User updated successfully"),
                           ("user", publicProfile user₂)] },
           store₁)
      else (msgResponse 400 "Current password is incorrect", store)
    else
      match saveUser store user₁ with
      | none => (msgResponse 500 "Server error", store)
      | some store₁ =>
        ({ status := 200,
           body := .obj [("message", .str "User updated successfully"),
                         ("user", publicProfile user₁)] },
         store₁)

/-- The ISO-8601 rendering of the current time used by the progress
stub; modelled by the decimal rendering of the timestamp (the claims
depend only on its dependence on the clock, never on the format). -/
def toISOString (t : Nat) : String := toString t

/-- `GET /api/progress` (after the middleware): a hardcoded payload,
except that `lastAssessmentDate` is `new Date().toISOString()` — the
current time of the invocation. Reads nothing from the store. -/
def progressHandler (now : Nat) (_uid : Nat) (store : Store) : HttpResponse × Store :=
  ({ status := 200,
     body := .obj [("mentalHealthScore", .num 75),
                   ("assessmentsCompleted", .num 3),
                   ("lastAssessmentDate", .str (toISOString now)),
                   ("progressHistory",
                    .arr [.obj [("date", .str "2024-01-01"), ("score", .num 65)],
                          .obj [("date", .str "2024-01-15"), ("score", .num 70)],
                          .obj [("date", .str "2024-02-01"), ("score", .num 75)]])] },
   store)

/-! ## Full routes (middleware composed with handlers) -/

/-- `GET /api/auth/me` as served: middleware then handler. -/
def meRoute (secret : String) (now : Nat) (authorization : Option String)
    (store : Store) : HttpResponse × Store :=
  protectedRoute secret now authorization store meHandler

/-- `PUT /api/users/update` as served: middleware then handler. -/
def updateRoute (secret : String) (now : Nat) (authorization : Option String)
    (store : Store) (salt : Nat) (b : UpdateBody) : HttpResponse × Store :=
  protectedRoute secret now authorization store
    (fun uid s => updateHandler s salt uid b)

/-- `GET /api/progress` as served: middleware then handler. -/
def progressRoute (secret : String) (now : Nat) (authorization : Option String)
    (store : Store) : HttpResponse × Store :=
  protectedRoute secret now authorization store (progressHandler now)

/-- The record the password-change branch hands to `save`: the basic
field updates plus the digest of the new password. -/
def passwordUpdatedRec (u₀ : UserRec) (b : UpdateBody) (salt : Nat) : UserRec :=
  { applyBasic u₀ b with password := bcryptHash (b.newPassword.getD "") salt }

/-- A password-change-only update body for witnesses. -/
def pwOnlyBody : UpdateBody :=
  { name := none, email := none, phone := none, birthdate := none,
    currentPassword := some "secret1", newPassword := some "brandNew" }

/-- The email-uniqueness invariant of the store. -/
def EmailsNodup (store : Store) : Prop := (store.map (fun u => u.email)).Nodup

/-- Well-formedness of the collection: `_id` is the primary key, so no
two documents share an id. -/
def IdsNodup (store : Store) : Prop := (store.map (fun u => u.id)).Nodup

/-- A response leaks no password material: neither a `password` nor a
`passwordDigest` field occurs anywhere in its JSON body. -/
def noPasswordField (r : HttpResponse) : Prop :=
  jsonHasKey "password" r.body = false ∧ jsonHasKey "passwordDigest" r.body = false

/-- Look up a top-level string field of a JSON object. -/
def jsonLookupStr (k : String) : Json → Option String
  | .obj fields =>
    match fields.find? (fun p => p.1 == k) with
    | some (_, .str s) => some s
    | _ => none
  | _ => none

/-- Blank out the value of one top-level field of a JSON object (used to
compare response bodies up to that field). -/
def maskField (k : String) : Json → Json
  | .obj fields => .obj (fields.map (fun p => if p.1 == k then (p.1, Json.str "") else p))
  | j => j

/-- A concrete stored user for witnesses: registered with password
`secret1` under salt 0. -/
def demoUser : UserRec :=
  { id := 1, name := "A", email := "a@x.com", password := bcryptHash "secret1" 0,
    phone := "", birthdate := none, createdAt := 0 }

/-- A second concrete stored user (distinct id and email). -/
def demoUser2 : UserRec :=
  { id := 2, name := "B", email := "b@x.com", password := bcryptHash "secret2" 0,
    phone := "", birthdate := none, createdAt := 0 }

/-- A concrete valid Authorization header for `demoUser`, issued at
time 0 with secret `s`. -/
def demoAuth : Option String :=
  some ("Bearer " ++ tokenString (jwtSign 1 "a@x.com" "s" 0))

/-- An update body that moves the email of `demoUser` onto that of
`demoUser2` while also requesting a verified password change. -/
def clashBody : UpdateBody :=
  { name := none, email := some "b@x.com", phone := none, birthdate := none,
    currentPassword := some "secret1", newPassword := some "brandNew" }


lemma noPw_msg (s : Nat) (m : String) : noPasswordField (msgResponse s m) := by
  simp [noPasswordField, msgResponse, jsonHasKey, fieldsHaveKey]

lemma runAuth_error_shape (secret : String) (now : Nat) (auth : Option String) (r : HttpResponse)
    (h : runAuth secret now auth = .error r) :
    r = msgResponse 401 "No token provided" ∨ r = msgResponse 401 "Invalid token" := by
  unfold runAuth at h
  split at h
  · simp only [Except.error.injEq] at h; exact Or.inl h.symm
  · split at h
    · simp only [Except.error.injEq] at h; exact Or.inr h.symm
    · exact absurd h (by simp)

lemma noPw_register (store : Store) (nextId salt now : Nat) (secret name email password : String) :
    noPasswordField (registerHandler store nextId salt now secret name email password).1 := by
  unfold registerHandler
  split
  · exact noPw_msg _ _
  · dsimp only
    split
    · exact noPw_msg _ _
    · simp [noPasswordField, jsonHasKey, fieldsHaveKey]

lemma noPw_login (store : Store) (now : Nat) (secret email password : String) :
    noPasswordField (loginHandler store now secret email password).1 := by
  unfold loginHandler
  split
  · exact noPw_msg _ _
  · split
    · simp [noPasswordField, jsonHasKey, fieldsHaveKey, publicProfile]
    · exact noPw_msg _ _

lemma noPw_me (uid : Nat) (store : Store) : noPasswordField (meHandler uid store).1 := by
  unfold meHandler
  split
  · exact noPw_msg _ _
  · simp [noPasswordField, jsonHasKey, fieldsHaveKey, publicProfile]

lemma noPw_update (store : Store) (salt uid : Nat) (b : UpdateBody) :
    noPasswordField (updateHandler store salt uid b).1 := by
  unfold updateHandler
  split
  · exact noPw_msg _ _
  · dsimp only
    split
    · split
      · split
        · exact noPw_msg _ _
        · simp [noPasswordField, jsonHasKey, fieldsHaveKey, publicProfile]
      · exact noPw_msg _ _
    · split
      · exact noPw_msg _ _
      · simp [noPasswordField, jsonHasKey, fieldsHaveKey, publicProfile]

lemma noPw_progress (now uid : Nat) (store : Store) :
    noPasswordField (progressHandler now uid store).1 := by
  simp [noPasswordField, progressHandler, jsonHasKey, fieldsHaveKey, arrHasKey]

lemma noPw_protected (secret : String) (now : Nat) (auth : Option String) (store : Store)
    (handler : Nat → Store → HttpResponse × Store)
    (h : ∀ uid s, noPasswordField (handler uid s).1) :
    noPasswordField (protectedRoute secret now auth store handler).1 := by
  unfold protectedRoute
  split
  · rcases runAuth_error_shape _ _ _ _ (by assumption) with h₁ | h₁ <;>
      (subst h₁; exact noPw_msg _ _)
  · exact h _ _

/-- C1: no success or error payload of register, login, me, update or
progress ever contains a `password` (or `passwordDigest`) field. -/
theorem no_password_in_any_response (store : Store) (nextId salt now : Nat)
    (secret name email password loginEmail loginPassword : String)
    (auth : Option String) (b : UpdateBody) :
    noPasswordField (registerHandler store nextId salt now secret name email password).1 ∧
    noPasswordField (loginHandler store now secret loginEmail loginPassword).1 ∧
    noPasswordField (meRoute secret now auth store).1 ∧
    noPasswordField (updateRoute secret now auth store salt b).1 ∧
    noPasswordField (progressRoute secret now auth store).1 :=
  ⟨noPw_register _ _ _ _ _ _ _ _,
   noPw_login _ _ _ _ _,
   noPw_protected _ _ _ _ _ (fun uid s => noPw_me uid s),
   noPw_protected _ _ _ _ _ (fun uid s => noPw_update s salt uid b),
   noPw_protected _ _ _ _ _ (fun uid s => noPw_progress now uid s)⟩

/-- C2: login answers 400 with the identical message string
`Invalid credentials` both when the email resolves to no stored user and
when the stored digest rejects the supplied password. -/
theorem login_same_error_for_unknown_email_and_bad_password
    (store : Store) (now : Nat) (secret email password : String) :
    (findByEmail store email = none →
      (loginHandler store now secret email password).1 = msgResponse 400 "Invalid credentials") ∧
    (∀ u, findByEmail store email = some u → bcryptCompare password u.password = false →
      (loginHandler store now secret email password).1 = msgResponse 400 "Invalid credentials") := by
  constructor
  · intro h; simp [loginHandler, h]
  · intro u hu hc; simp [loginHandler, hu, hc]

/-- Witness for C2 at concrete inputs: an unknown email on the empty
store, and a wrong password against `demoUser`. -/
theorem login_same_error_witness :
    (loginHandler [] 0 "s" "a@x.com" "pw").1 = msgResponse 400 "Invalid credentials" ∧
    (loginHandler [demoUser] 0 "s" "a@x.com" "wrong").1 = msgResponse 400 "Invalid credentials" :=
  ⟨(login_same_error_for_unknown_email_and_bad_password [] 0 "s" "a@x.com" "pw").1 rfl,
   (login_same_error_for_unknown_email_and_bad_password [demoUser] 0 "s" "a@x.com" "wrong").2
     demoUser rfl rfl⟩

/-- C9 counterexample: two authorized invocations of the progress route
(at clock times 0 and 1, same token, same store) both answer 200 yet
produce different bodies, because `lastAssessmentDate` is the current
time; the response body is not one constant object. -/
theorem progress_body_not_constant :
    (progressRoute "s" 0 demoAuth []).1.status = 200 ∧
    (progressRoute "s" 1 demoAuth []).1.status = 200 ∧
    (progressRoute "s" 0 demoAuth []).1.body ≠ (progressRoute "s" 1 demoAuth []).1.body := by
  refine ⟨rfl, rfl, fun h => ?_⟩
  have h₂ := congrArg (jsonLookupStr "lastAssessmentDate") h
  rw [show jsonLookupStr "lastAssessmentDate" (progressRoute "s" 0 demoAuth []).1.body
        = some "0" from rfl,
      show jsonLookupStr "lastAssessmentDate" (progressRoute "s" 1 demoAuth []).1.body
        = some "1" from rfl] at h₂
  exact absurd h₂ (by decide)

/-- C9 amended: the progress handler reads nothing from the store — at a
fixed clock time the response is the same for every user and store, its
status is 200, the store is untouched, and across any two invocations
the bodies agree on every field except `lastAssessmentDate` (which
renders the clock time of the invocation). -/
theorem progress_is_stub (now uid₁ uid₂ : Nat) (store₁ store₂ : Store) :
    (progressHandler now uid₁ store₁).1 = (progressHandler now uid₂ store₂).1 ∧
    (progressHandler now uid₁ store₁).2 = store₁ ∧
    (progressHandler now uid₁ store₁).1.status = 200 ∧
    jsonLookupStr "lastAssessmentDate" (progressHandler now uid₁ store₁).1.body
      = some (toISOString now) ∧
    ∀ t₁ t₂ u₁ u₂ : Nat, ∀ s₁ s₂ : Store,
      maskField "lastAssessmentDate" (progressHandler t₁ u₁ s₁).1.body
        = maskField "lastAssessmentDate" (progressHandler t₂ u₂ s₂).1.body := by
  refine ⟨rfl, rfl, rfl, rfl, fun t₁ t₂ u₁ u₂ s₁ s₂ => ?_⟩
  simp [progressHandler, maskField]

/-- C6: a signed token embeds exactly the `{userId, email}` claims with
expiry seven days after issuance; verification returns those claims at
any time strictly before the expiry and fails at any time after it. -/
theorem token_verifies_before_expiry_fails_after
    (userId : Nat) (email secret : String) (issuedAt t : Nat) :
    (jwtSign userId email secret issuedAt).userId = userId ∧
    (jwtSign userId email secret issuedAt).email = email ∧
    (jwtSign userId email secret issuedAt).exp = issuedAt + 7 * 24 * 60 * 60 ∧
    (t < issuedAt + 7 * 24 * 60 * 60 →
      jwtVerifyTok (jwtSign userId email secret issuedAt) secret t = some (userId, email)) ∧
    (issuedAt + 7 * 24 * 60 * 60 < t →
      jwtVerifyTok (jwtSign userId email secret issuedAt) secret t = none) := by
  refine ⟨rfl, rfl, rfl, fun h => ?_, fun h => ?_⟩ <;>
    simp [jwtVerifyTok, jwtSign, sevenDays] <;> omega

/-- Witness for C6: a token issued at time 0 verifies at time 5 and is
rejected at time 604801 (just past the seven-day expiry). -/
theorem token_expiry_witness :
    jwtVerifyTok (jwtSign 1 "a@x.com" "s" 0) "s" 5 = some (1, "a@x.com") ∧
    jwtVerifyTok (jwtSign 1 "a@x.com" "s" 0) "s" 604801 = none :=
  ⟨(token_verifies_before_expiry_fails_after 1 "a@x.com" "s" 0 5).2.2.2.1 (by decide),
   (token_verifies_before_expiry_fails_after 1 "a@x.com" "s" 0 604801).2.2.2.2 (by decide)⟩

/-- C7: a protected route rejects with 401 — for every handler and
store, without invoking the handler — when no token is extracted from
the Authorization header or when the presented token fails verification;
and whenever the middleware admits a request, its token was extracted
and verified, and the handler runs on the verified userId. -/
theorem protected_route_gate (secret : String) (now : Nat) (auth : Option String) :
    (extractToken auth = none →
      ∀ (store : Store) (handler : Nat → Store → HttpResponse × Store),
        protectedRoute secret now auth store handler
          = (msgResponse 401 "No token provided", store)) ∧
    (∀ tok, extractToken auth = some tok → jwtVerifyStr tok secret now = none →
      ∀ (store : Store) (handler : Nat → Store → HttpResponse × Store),
        protectedRoute secret now auth store handler
          = (msgResponse 401 "Invalid token", store)) ∧
    (∀ uid, runAuth secret now auth = .ok uid →
      (∃ tok claims, extractToken auth = some tok ∧
        jwtVerifyStr tok secret now = some claims ∧ claims.1 = uid) ∧
      ∀ (store : Store) (handler : Nat → Store → HttpResponse × Store),
        protectedRoute secret now auth store handler = handler uid store) := by
  refine ⟨fun he store handler => ?_, fun tok he hv store handler => ?_, fun uid hok => ?_⟩
  · simp [protectedRoute, runAuth, he]
  · simp [protectedRoute, runAuth, he, hv]
  · unfold runAuth at hok
    constructor
    · split at hok
      · exact absurd hok (by simp)
      · rcases hv : jwtVerifyStr _ secret now with _ | claims
        · rw [hv] at hok; exact absurd hok (by simp)
        · rw [hv] at hok
          simp only [Except.ok.injEq] at hok
          exact ⟨_, claims, by assumption, hv, hok⟩
    · intro store handler
      unfold protectedRoute
      rw [show runAuth secret now auth = .ok uid by unfold runAuth; exact hok]

/-- Witness for C7: a missing header, a token signed with the wrong
secret, and a valid token, each at a concrete store and handler. -/
theorem protected_route_gate_witness :
    protectedRoute "s" 0 none [demoUser] meHandler
      = (msgResponse 401 "No token provided", [demoUser]) ∧
    protectedRoute "s" 0 (some ("Bearer " ++ tokenString (jwtSign 1 "a@x.com" "evil" 0)))
        [demoUser] meHandler
      = (msgResponse 401 "Invalid token", [demoUser]) ∧
    protectedRoute "s" 0 demoAuth [demoUser] meHandler = meHandler 1 [demoUser] :=
  ⟨(protected_route_gate "s" 0 none).1 rfl [demoUser] meHandler,
   (protected_route_gate "s" 0
       (some ("Bearer " ++ tokenString (jwtSign 1 "a@x.com" "evil" 0)))).2.1
     (tokenString (jwtSign 1 "a@x.com" "evil" 0)) rfl rfl [demoUser] meHandler,
   ((protected_route_gate "s" 0 demoAuth).2.2 1 rfl).2 [demoUser] meHandler⟩

lemma countP_email_eq_one {l : Store} {e : String}
    (hnodup : (l.map (fun u => u.email)).Nodup) (hmem : ∃ u ∈ l, u.email = e) :
    l.countP (fun u => u.email == e) = 1 := by
  induction l with
  | nil => simp at hmem
  | cons v rest ih =>
    simp only [List.map_cons, List.nodup_cons] at hnodup
    rcases hmem with ⟨u, hu, hue⟩
    rw [List.countP_cons]
    rcases List.mem_cons.mp hu with h | h
    · subst h
      have hzero : rest.countP (fun u => u.email == e) = 0 := by
        rw [List.countP_eq_zero]
        intro w hw
        simp only [beq_iff_eq]
        intro hwe
        exact hnodup.1 (hue ▸ hwe ▸ List.mem_map_of_mem _ hw)
      simp [hzero, hue]
    · have hne : v.email ≠ e := by
        intro hv
        apply hnodup.1
        rw [hv, ← hue]
        exact List.mem_map_of_mem (fun u => u.email) h
      rw [ih hnodup.2 ⟨u, h, hue⟩]
      simp [hne]

/-- C4: registering an email that an existing record already holds (in a
store satisfying the uniqueness invariant) answers 400, leaves the store
untouched, and the store still contains exactly one record with that
email. -/
theorem register_duplicate_email_rejected (store : Store) (nextId salt now : Nat)
    (secret name email password : String)
    (hnodup : EmailsNodup store) (hmem : ∃ u ∈ store, u.email = email) :
    (registerHandler store nextId salt now secret name email password).1
      = msgResponse 400 "User already exists" ∧
    (registerHandler store nextId salt now secret name email password).2 = store ∧
    (registerHandler store nextId salt now secret name email password).2.countP
      (fun u => u.email == email) = 1 := by
  rcases h : findByEmail store email with _ | w
  · exfalso
    rcases hmem with ⟨u, hu, hue⟩
    have hnone := List.find?_eq_none.mp h u hu
    simp [hue] at hnone
  · refine ⟨?_, ?_, ?_⟩ <;>
      simp [registerHandler, h, countP_email_eq_one hnodup hmem]

/-- Witness for C4: re-registering the email of `demoUser` on the
singleton store. -/
theorem register_duplicate_witness :
    (registerHandler [demoUser] 2 0 0 "s" "B" "a@x.com" "pw").1
      = msgResponse 400 "User already exists" ∧
    (registerHandler [demoUser] 2 0 0 "s" "B" "a@x.com" "pw").2 = [demoUser] ∧
    (registerHandler [demoUser] 2 0 0 "s" "B" "a@x.com" "pw").2.countP
      (fun u => u.email == "a@x.com") = 1 :=
  register_duplicate_email_rejected [demoUser] 2 0 0 "s" "B" "a@x.com" "pw"
    (by simp [EmailsNodup]) ⟨demoUser, by simp, rfl⟩

lemma insertUser_emailsNodup {store : Store} {u : UserRec} {store₁ : Store}
    (hem : EmailsNodup store) (h : insertUser store u = some store₁) :
    EmailsNodup store₁ := by
  unfold insertUser at h
  split at h
  · exact absurd h (by simp)
  · rename_i hg
    simp only [Option.some.injEq] at h
    subst h
    unfold EmailsNodup at *
    rw [List.map_append]
    simp only [List.any_eq_true, beq_iff_eq, not_exists, not_and] at hg
    simp only [List.map_cons, List.map_nil, List.nodup_append, List.nodup_cons,
      List.not_mem_nil, not_false_iff, List.nodup_nil, true_and, and_true]
    refine ⟨hem, ?_⟩
    intro e he
    simp only [List.mem_map] at he
    rcases he with ⟨v, hv, hve⟩
    simp only [List.mem_singleton]
    intro hcontra
    exact hg v hv (by rw [hve, hcontra])

lemma saveUser_guard {store : Store} {u : UserRec} {store₁ : Store}
    (h : saveUser store u = some store₁) :
    (∀ v ∈ store, v.id ≠ u.id → v.email ≠ u.email) ∧
    store₁ = store.map (fun v => if v.id == u.id then u else v) := by
  unfold saveUser at h
  split at h
  · exact absurd h (by simp)
  · rename_i hg
    simp only [List.any_eq_true, Bool.and_eq_true, bne_iff_ne, beq_iff_eq,
      not_exists, not_and] at hg
    simp only [Option.some.injEq] at h
    constructor
    · intro v hv hid hemail
      exact hg v hv hid hemail
    · exact h.symm

lemma map_replace_emailsNodup (u : UserRec) :
    ∀ store : Store, (store.map (fun v => v.id)).Nodup →
      (store.map (fun v => v.email)).Nodup →
      (∀ v ∈ store, v.id ≠ u.id → v.email ≠ u.email) →
      ((store.map (fun v => if v.id == u.id then u else v)).map (fun v => v.email)).Nodup := by
  intro store
  induction store with
  | nil => intro _ _ _; simp
  | cons v rest ih =>
    intro hids hem hguard
    simp only [List.map_cons, List.nodup_cons] at hids hem ⊢
    by_cases hid : v.id = u.id
    · rw [if_pos (by simpa using hid)]
    
      have hrest : rest.map (fun w => if w.id == u.id then u else w) = rest.map id := by
        apply List.map_congr_left
        intro w hw
        have hwid : w.id ≠ u.id := by
          intro hcontra
          exact hids.1 (hid ▸ hcontra ▸ List.mem_map_of_mem (fun x => x.id) hw)
        simp [hwid]
      rw [hrest, List.map_id]
      refine ⟨?_, hem.2⟩
      intro hcontra
      simp only [List.mem_map] at hcontra
      rcases hcontra with ⟨w, hw, hwe⟩
      have hwid : w.id ≠ u.id := by
        intro hcontra₂
        exact hids.1 (hid ▸ hcontra₂ ▸ List.mem_map_of_mem (fun x => x.id) hw)
      exact hguard w (List.mem_cons_of_mem _ hw) hwid hwe
    · rw [if_neg (by simpa using hid)]
      refine ⟨?_, ih hids.2 hem.2
        (fun w hw => hguard w (List.mem_cons_of_mem _ hw))⟩
      intro hcontra
      simp only [List.mem_map] at hcontra
      rcases hcontra with ⟨w, ⟨a, ha, hfa⟩, hwe⟩
      subst hfa
      by_cases haid : a.id = u.id
      · rw [if_pos (by simpa using haid)] at hwe
        exact hguard v (List.mem_cons_self _ _) hid hwe.symm
      · rw [if_neg (by simpa using haid)] at hwe
        exact hem.1 (hwe ▸ List.mem_map_of_mem (fun x => x.email) ha)

lemma saveUser_emailsNodup {store : Store} {u : UserRec} {store₁ : Store}
    (hids : IdsNodup store) (hem : EmailsNodup store)
    (h : saveUser store u = some store₁) : EmailsNodup store₁ := by
  obtain ⟨hguard, heq⟩ := saveUser_guard h
  subst heq
  exact map_replace_emailsNodup u store hids hem hguard

lemma loginHandler_store (store : Store) (now : Nat) (secret email password : String) :
    (loginHandler store now secret email password).2 = store := by
  unfold loginHandler
  split
  · rfl
  · split <;> rfl

lemma meHandler_store (uid : Nat) (store : Store) : (meHandler uid store).2 = store := by
  unfold meHandler
  split <;> rfl

lemma register_emailsNodup (store : Store) (nextId salt now : Nat)
    (secret name email password : String) (hem : EmailsNodup store) :
    EmailsNodup (registerHandler store nextId salt now secret name email password).2 := by
  unfold registerHandler
  split
  · exact hem
  · dsimp only
    split
    · exact hem
    · rename_i store₁ heq
      exact insertUser_emailsNodup hem heq

lemma update_emailsNodup (store : Store) (salt uid : Nat) (b : UpdateBody)
    (hids : IdsNodup store) (hem : EmailsNodup store) :
    EmailsNodup (updateHandler store salt uid b).2 := by
  unfold updateHandler
  split
  · exact hem
  · dsimp only
    split
    · split
      · split
        · exact hem
        · rename_i store₁ heq
          exact saveUser_emailsNodup hids hem heq
      · exact hem
    · split
      · exact hem
      · rename_i store₁ heq
        exact saveUser_emailsNodup hids hem heq

lemma protected_emailsNodup (secret : String) (now : Nat) (auth : Option String)
    (store : Store) (handler : Nat → Store → HttpResponse × Store)
    (hem : EmailsNodup store)
    (h : ∀ uid, EmailsNodup (handler uid store).2) :
    EmailsNodup (protectedRoute secret now auth store handler).2 := by
  unfold protectedRoute
  split
  · exact hem
  · exact h _

/-- C5: starting from a store in which no two records share an email (and
ids are the primary key), every exposed operation — register, login, me,
update, progress — leaves a store in which no two records share an
email. -/
theorem email_uniqueness_invariant (store : Store) (nextId salt now : Nat)
    (secret name email password loginEmail loginPassword : String)
    (auth : Option String) (b : UpdateBody)
    (hids : IdsNodup store) (hem : EmailsNodup store) :
    EmailsNodup (registerHandler store nextId salt now secret name email password).2 ∧
    EmailsNodup (loginHandler store now secret loginEmail loginPassword).2 ∧
    EmailsNodup (meRoute secret now auth store).2 ∧
    EmailsNodup (updateRoute secret now auth store salt b).2 ∧
    EmailsNodup (progressRoute secret now auth store).2 := by
  refine ⟨register_emailsNodup _ _ _ _ _ _ _ _ hem, ?_, ?_, ?_, ?_⟩
  · rw [loginHandler_store]; exact hem
  · exact protected_emailsNodup _ _ _ _ _ hem
      (fun uid => by rw [meHandler_store]; exact hem)
  · exact protected_emailsNodup _ _ _ _ _ hem
      (fun uid => update_emailsNodup _ _ _ _ hids hem)
  · exact protected_emailsNodup _ _ _ _ _ hem (fun uid => hem)

/-- Witness for C5 on a concrete two-user store: the update that moves
the email of `demoUser` onto that of `demoUser2` is refused by the
store, so the emails stay distinct. -/
theorem email_uniqueness_invariant_witness :
    EmailsNodup (updateRoute "s" 0 demoAuth [demoUser, demoUser2] 7 clashBody).2 :=
  (email_uniqueness_invariant [demoUser, demoUser2] 3 7 0 "s" "N" "n@x.com" "pw"
    "a@x.com" "secret1" demoAuth clashBody (by unfold IdsNodup; decide) (by unfold EmailsNodup; decide)).2.2.2.1

lemma applyBasic_id (u : UserRec) (b : UpdateBody) : (applyBasic u b).id = u.id := by
  obtain ⟨n, e, p, d, cp, np⟩ := b
  unfold applyBasic setName setEmail setPhone setBirthdate
  rcases n with _ | n <;> rcases e with _ | e <;> rcases p with _ | p <;> rcases d with _ | d <;>
    dsimp only <;> split_ifs <;> rfl

lemma applyBasic_createdAt (u : UserRec) (b : UpdateBody) :
    (applyBasic u b).createdAt = u.createdAt := by
  obtain ⟨n, e, p, d, cp, np⟩ := b
  unfold applyBasic setName setEmail setPhone setBirthdate
  rcases n with _ | n <;> rcases e with _ | e <;> rcases p with _ | p <;> rcases d with _ | d <;>
    dsimp only <;> split_ifs <;> rfl

lemma applyBasic_password (u : UserRec) (b : UpdateBody) :
    (applyBasic u b).password = u.password := by
  obtain ⟨n, e, p, d, cp, np⟩ := b
  unfold applyBasic setName setEmail setPhone setBirthdate
  rcases n with _ | n <;> rcases e with _ | e <;> rcases p with _ | p <;> rcases d with _ | d <;>
    dsimp only <;> split_ifs <;> rfl

lemma applyBasic_name_none (u : UserRec) (b : UpdateBody) (h : b.name = none) :
    (applyBasic u b).name = u.name := by
  obtain ⟨n, e, p, d, cp, np⟩ := b
  cases h
  unfold applyBasic setName setEmail setPhone setBirthdate
  rcases e with _ | e <;> rcases p with _ | p <;> rcases d with _ | d <;>
    dsimp only <;> split_ifs <;> rfl

lemma applyBasic_email_none (u : UserRec) (b : UpdateBody) (h : b.email = none) :
    (applyBasic u b).email = u.email := by
  obtain ⟨n, e, p, d, cp, np⟩ := b
  cases h
  unfold applyBasic setName setEmail setPhone setBirthdate
  rcases n with _ | n <;> rcases p with _ | p <;> rcases d with _ | d <;>
    dsimp only <;> split_ifs <;> rfl

lemma applyBasic_phone_none (u : UserRec) (b : UpdateBody) (h : b.phone = none) :
    (applyBasic u b).phone = u.phone := by
  obtain ⟨n, e, p, d, cp, np⟩ := b
  cases h
  unfold applyBasic setName setEmail setPhone setBirthdate
  rcases n with _ | n <;> rcases e with _ | e <;> rcases d with _ | d <;>
    dsimp only <;> split_ifs <;> rfl

lemma applyBasic_birthdate_none (u : UserRec) (b : UpdateBody) (h : b.birthdate = none) :
    (applyBasic u b).birthdate = u.birthdate := by
  obtain ⟨n, e, p, d, cp, np⟩ := b
  cases h
  unfold applyBasic setName setEmail setPhone setBirthdate
  rcases n with _ | n <;> rcases e with _ | e <;> rcases p with _ | p <;>
    dsimp only <;> split_ifs <;> rfl

/-- C10: when an update supplies both password fields and the current
password fails verification, the whole update is discarded: the handler
answers 400 before any save, so the store — including any supplied name,
email, phone or birthdate values — is completely unchanged. -/
theorem update_wrong_password_discards_everything (store : Store) (salt uid : Nat)
    (b : UpdateBody) (u₀ : UserRec) (hfind : findById store uid = some u₀)
    (hcp : truthy b.currentPassword = true) (hnp : truthy b.newPassword = true)
    (hbad : bcryptCompare (b.currentPassword.getD "") u₀.password = false) :
    updateHandler store salt uid b
      = (msgResponse 400 "Current password is incorrect", store) := by
  unfold updateHandler
  simp [hfind, hcp, hnp, applyBasic_password, hbad]

/-- Witness for C10: a wrong current password alongside a new name and
phone leaves the two-user store untouched. -/
theorem update_wrong_password_witness :
    updateHandler [demoUser, demoUser2] 7 1
        { name := some "Zed", email := none, phone := some "123", birthdate := none,
          currentPassword := some "wrong", newPassword := some "brandNew" }
      = (msgResponse 400 "Current password is incorrect", [demoUser, demoUser2]) :=
  update_wrong_password_discards_everything [demoUser, demoUser2] 7 1 _ demoUser
    rfl rfl rfl rfl

/-- C3 counterexample: `clashBody` supplies both password fields, its
current password verifies against the stored digest of `demoUser`, yet the
stored digest does not become the hash of the new password — the update
also moves the email onto that of `demoUser2`, the unique-email index makes
the save fail, and the handler answers 500 with the store unchanged. -/
theorem update_verified_password_change_cx :
    truthy clashBody.currentPassword = true ∧ truthy clashBody.newPassword = true ∧
    bcryptCompare "secret1" demoUser.password = true ∧
    (updateHandler [demoUser, demoUser2] 7 1 clashBody).1 = msgResponse 500 "Server error" ∧
    (updateHandler [demoUser, demoUser2] 7 1 clashBody).2 = [demoUser, demoUser2] ∧
    demoUser.password ≠ bcryptHash "brandNew" 7 :=
  ⟨rfl, rfl, rfl, rfl, rfl, by decide⟩

/-- C3 amended: with both password fields supplied, a failing current
password yields 400 `Current password is incorrect` with the store (and
so the digest) unchanged; a verifying one hashes the new password and
saves — when the save passes the unique-email index the digest of the
stored record is the hash of the new password, and when the index rejects it
the handler answers 500 and nothing changes. -/
theorem update_password_change (store : Store) (salt uid : Nat) (b : UpdateBody)
    (u₀ : UserRec) (hfind : findById store uid = some u₀)
    (hcp : truthy b.currentPassword = true) (hnp : truthy b.newPassword = true) :
    (bcryptCompare (b.currentPassword.getD "") u₀.password = false →
      updateHandler store salt uid b
        = (msgResponse 400 "Current password is incorrect", store)) ∧
    (bcryptCompare (b.currentPassword.getD "") u₀.password = true →
      (saveUser store (passwordUpdatedRec u₀ b salt) = none →
        updateHandler store salt uid b = (msgResponse 500 "Server error", store)) ∧
      (∀ store₁, saveUser store (passwordUpdatedRec u₀ b salt) = some store₁ →
        (updateHandler store salt uid b).1.status = 200 ∧
        (updateHandler store salt uid b).2 = store₁ ∧
        ∀ v ∈ store₁, v.id = u₀.id →
          v.password = bcryptHash (b.newPassword.getD "") salt)) := by
  have hok : bcryptCompare (b.currentPassword.getD "") (applyBasic u₀ b).password
      = bcryptCompare (b.currentPassword.getD "") u₀.password := by
    rw [applyBasic_password]
  refine ⟨fun hbad => ?_, fun hgood => ⟨fun hsave => ?_, fun store₁ hsave => ?_⟩⟩
  · unfold updateHandler
    simp [hfind, hcp, hnp, hok, hbad]
  · unfold updateHandler
    simp only [hfind, hcp, hnp, Bool.and_self, if_true, hok, hgood, if_pos]
    simp [passwordUpdatedRec] at hsave
    simp [hsave]
  · obtain ⟨hguard, heq⟩ := saveUser_guard hsave
    have hupd : updateHandler store salt uid b
        = ({ status := 200,
             body := .obj [("message", .str "User updated successfully"),
                           ("user", publicProfile (passwordUpdatedRec u₀ b salt))] },
           store₁) := by
      unfold updateHandler
      simp only [hfind, hcp, hnp, Bool.and_self, if_true, hok, hgood, if_pos]
      simp [passwordUpdatedRec] at hsave
      simp [hsave, passwordUpdatedRec]
    refine ⟨by rw [hupd], by rw [hupd], ?_⟩
    intro v hv hvid
    subst heq
    simp only [List.mem_map] at hv
    rcases hv with ⟨w, hw, hfw⟩
    by_cases hwid : w.id = (passwordUpdatedRec u₀ b salt).id
    · rw [if_pos (by simpa using hwid)] at hfw
      rw [← hfw]
      simp [passwordUpdatedRec]
    · rw [if_neg (by simpa using hwid)] at hfw
      exfalso
      apply hwid
      rw [hfw, hvid]
      simp [passwordUpdatedRec, applyBasic_id]

/-- Witness for the amended C3: a verified password change with no email
clash answers 200 and stores the hash of the new password. -/
theorem update_password_change_witness :
    (updateHandler [demoUser] 7 1 pwOnlyBody).1.status = 200 ∧
    (updateHandler [demoUser] 7 1 pwOnlyBody).2
      = [{ demoUser with password := bcryptHash "brandNew" 7 }] ∧
    ∀ v ∈ [{ demoUser with password := bcryptHash "brandNew" 7 }], v.id = demoUser.id →
      v.password = bcryptHash "brandNew" 7 :=
  ((update_password_change [demoUser] 7 1 pwOnlyBody demoUser rfl rfl rfl).2 rfl).2
    [{ demoUser with password := bcryptHash "brandNew" 7 }] rfl

/-- C8: an update of an existing user either leaves the store unchanged
(wrong current password, or a save rejected by the unique-email index)
or replaces exactly the records carrying the requested id by one record in
which id and createdAt are those of the fetched user and every field the
request omitted keeps its prior value (the digest changes only when both
password fields were supplied). -/
theorem update_only_changes_supplied_fields (store : Store) (salt uid : Nat)
    (b : UpdateBody) (u₀ : UserRec) (hfind : findById store uid = some u₀) :
    (updateHandler store salt uid b).2 = store ∨
    ∃ u₁, (updateHandler store salt uid b).2
        = store.map (fun v => if v.id == uid then u₁ else v) ∧
      u₁.id = u₀.id ∧ u₁.createdAt = u₀.createdAt ∧
      (b.name = none → u₁.name = u₀.name) ∧
      (b.email = none → u₁.email = u₀.email) ∧
      (b.phone = none → u₁.phone = u₀.phone) ∧
      (b.birthdate = none → u₁.birthdate = u₀.birthdate) ∧
      ((b.currentPassword = none ∨ b.newPassword = none) → u₁.password = u₀.password) := by
  have huid : u₀.id = uid := by
    have h := List.find?_some hfind
    simpa using h
  have hcpnone : truthy b.currentPassword = true → b.currentPassword ≠ none := by
    intro h hn; rw [hn] at h; exact absurd h (by simp [truthy])
  have hnpnone : truthy b.newPassword = true → b.newPassword ≠ none := by
    intro h hn; rw [hn] at h; exact absurd h (by simp [truthy])
  unfold updateHandler
  split
  · rename_i heq; rw [hfind] at heq; cases heq
  · rename_i user hheq
    rw [hfind] at hheq
    injection hheq with hheq
    subst hheq
    dsimp only
    split
    · rename_i hpw
      simp only [Bool.and_eq_true] at hpw
      split
      · split
        · exact Or.inl rfl
        · rename_i store₁ hsave
          obtain ⟨hguard, heq⟩ := saveUser_guard hsave
          refine Or.inr ⟨{ applyBasic u₀ b with
              password := bcryptHash (b.newPassword.getD "") salt }, ?_, ?_, ?_, ?_, ?_, ?_, ?_, ?_⟩
          · subst heq
            dsimp only
            apply List.map_congr_left
            intro w hw
            by_cases hwid : w.id = uid
            · rw [if_pos (by simp [hwid, applyBasic_id, huid]), if_pos (by simp [hwid])]
            · rw [if_neg (by simp [hwid, applyBasic_id, huid]), if_neg (by simp [hwid])]
          · simpa using applyBasic_id u₀ b
          · simpa using applyBasic_createdAt u₀ b
          · intro h; simpa using applyBasic_name_none u₀ b h
          · intro h; simpa using applyBasic_email_none u₀ b h
          · intro h; simpa using applyBasic_phone_none u₀ b h
          · intro h; simpa using applyBasic_birthdate_none u₀ b h
          · intro h
            rcases h with h | h
            · exact absurd h (hcpnone hpw.1)
            · exact absurd h (hnpnone hpw.2)
      · exact Or.inl rfl
    · split
      · exact Or.inl rfl
      · rename_i store₁ hsave
        obtain ⟨hguard, heq⟩ := saveUser_guard hsave
        refine Or.inr ⟨applyBasic u₀ b, ?_, applyBasic_id u₀ b, applyBasic_createdAt u₀ b,
          applyBasic_name_none u₀ b, applyBasic_email_none u₀ b,
          applyBasic_phone_none u₀ b, applyBasic_birthdate_none u₀ b,
          fun _ => applyBasic_password u₀ b⟩
        rw [heq]
        have hid : (applyBasic u₀ b).id = uid := by rw [applyBasic_id]; exact huid
        rw [hid]

/-- Witness for C8: updating only the phone of `demoUser` changes just
the phone of just that record; name, email, birthdate, id, createdAt and the
digest keep their prior values. -/
theorem update_frame_witness :
    (updateHandler [demoUser, demoUser2] 7 1
        { name := none, email := none, phone := some "123", birthdate := none,
          currentPassword := none, newPassword := none }).2 = [demoUser, demoUser2] ∨
    ∃ u₁, (updateHandler [demoUser, demoUser2] 7 1
        { name := none, email := none, phone := some "123", birthdate := none,
          currentPassword := none, newPassword := none }).2
        = [demoUser, demoUser2].map (fun v => if v.id == 1 then u₁ else v) ∧
      u₁.id = demoUser.id ∧ u₁.createdAt = demoUser.createdAt ∧
      (True → u₁.name = demoUser.name) ∧ (True → u₁.email = demoUser.email) ∧
      (some "123" = none → u₁.phone = demoUser.phone) ∧
      (True → u₁.birthdate = demoUser.birthdate) ∧
      (True → u₁.password = demoUser.password) := by
  rcases update_only_changes_supplied_fields [demoUser, demoUser2] 7 1
      { name := none, email := none, phone := some "123", birthdate := none,
        currentPassword := none, newPassword := none } demoUser rfl with h | ⟨u₁, h₁, h₂, h₃, h₄, h₅, h₆, h₇, h₈⟩
  · exact Or.inl h
  · exact Or.inr ⟨u₁, h₁, h₂, h₃, fun _ => h₄ rfl, fun _ => h₅ rfl, h₆,
      fun _ => h₇ rfl, fun _ => h₈ (Or.inl rfl)⟩
